import Mathlib

/-!
Verification development for a proxy share-link converter (src/converter.js).

The program parses four URI-style share-link schemes (vless, vmess, trojan,
shadowsocks) into one canonical record, serializes the record into four
client-application formats, batch-processes many links with per-link failure
isolation, and assembles documents from cached, level-fallback templates.

Modelling conventions:
* A JavaScript string is modelled as a list of characters (`JStr`).
* JavaScript `undefined` is modelled with `Option`; JS truthiness tests are
  modelled by dedicated helpers (`jsOr`, `otruthy`, ...).
* Fallible JS code (thrown exceptions) is modelled with `Except String`.
* `parseInt(s, 10)` is modelled by `jsParseInt`, with `none` playing the role
  of `NaN`.
* Node's `Buffer.from(s, 'base64')` (which never throws and ignores
  characters outside the base64 alphabet) is modelled by `nodeBase64Decode`;
  decoded byte sequences are mapped back to characters codepoint-wise, which
  is exact for the ASCII payloads exercised here.
* `JSON.parse` is modelled by `parseFlatJson` for the flat string/number
  JSON objects that vmess payloads consist of.
* `decodeURIComponent` is modelled by `decodeURIComponent` below, exact for
  percent-escapes of ASCII bytes (multi-byte UTF-8 escapes are not needed by
  any statement proved here and are mapped to the failure case).
* The `js-yaml` `yaml.dump` and `JSON.stringify` library calls at the very
  end of `toClash` / `toSingBox` are not modelled; `toClash` and `toSingBox`
  return the exact object that the source hands to those library functions.
-/

deriving instance DecidableEq for Except

abbrev JStr := List Char

/-- JS `str.split(c)` for a one-character separator: never returns an empty
list, keeps empty segments, `"".split(c) = [""]`. -/
def splitc (c : Char) : JStr → List JStr
  | [] => [[]]
  | a :: rest =>
    let s := splitc c rest
    if a = c then [] :: s
    else (a :: s.headI) :: s.tail

/-- JS `str.indexOf(c)`, with `none` for `-1`. -/
def indexOfc (c : Char) : JStr → Option Nat
  | [] => none
  | a :: rest => if a = c then some 0 else (indexOfc c rest).map (· + 1)

/-- JS `str.trim()` (whitespace on both ends). -/
def trimJ (s : JStr) : JStr :=
  ((s.dropWhile Char.isWhitespace).reverse.dropWhile Char.isWhitespace).reverse

/-- JS truthiness of a possibly-undefined string: `undefined` and `''` are
falsy. -/
def otruthy : Option JStr → Bool
  | none => false
  | some s => s ≠ []

/-- JS `a || d` for a possibly-undefined string `a` and a string default. -/
def jsOr (a : Option JStr) (d : JStr) : JStr :=
  match a with
  | some s => if s = [] then d else s
  | none => d

/-- JS `a || b` where both operands are possibly-undefined strings and the
result is observed only through truthiness and its string value (the falsy
cases `undefined` and `''` are collapsed to `none`). -/
def jsOrO (a b : Option JStr) : Option JStr :=
  if otruthy a then a else if otruthy b then b else none

/-- Decimal digit prefix value used by `jsParseInt`. -/
def digitsPrefixVal (s : JStr) : Option Nat :=
  let ds := s.takeWhile fun c => '0' ≤ c ∧ c ≤ '9'
  if ds = [] then none
  else some (ds.foldl (fun acc c => acc * 10 + (c.toNat - 48)) 0)

/-- JS `parseInt(s, 10)`: skip leading whitespace, optional sign, then the
longest digit prefix; `none` models `NaN`. -/
def jsParseInt (s : JStr) : Option Int :=
  let s := s.dropWhile Char.isWhitespace
  match s with
  | '-' :: rest => (digitsPrefixVal rest).map fun n => -(n : Int)
  | '+' :: rest => (digitsPrefixVal rest).map fun n => (n : Int)
  | _ => (digitsPrefixVal s).map fun n => (n : Int)

/-- JS `parseInt(x, 10)` where `x` may be `undefined`
(`parseInt(undefined)` is `NaN`). -/
def jsParseIntO : Option JStr → Option Int
  | none => none
  | some s => jsParseInt s

def hexVal (c : Char) : Option Nat :=
  if '0' ≤ c ∧ c ≤ '9' then some (c.toNat - 48)
  else if 'a' ≤ c ∧ c ≤ 'f' then some (c.toNat - 97 + 10)
  else if 'A' ≤ c ∧ c ≤ 'F' then some (c.toNat - 65 + 10)
  else none

/-- JS `decodeURIComponent`: percent-escapes of ASCII bytes are decoded,
malformed escapes give `none` (modelling the thrown `URIError`).  Multi-byte
UTF-8 escape sequences also give `none`; no statement below depends on them. -/
def decodeURIComponent : JStr → Option JStr
  | [] => some []
  | '%' :: rest =>
    match rest with
    | a :: b :: rest2 =>
      match hexVal a, hexVal b with
      | some ha, some hb =>
        if ha * 16 + hb < 128 then
          (decodeURIComponent rest2).map fun tl => Char.ofNat (ha * 16 + hb) :: tl
        else none
      | _, _ => none
    | _ => none
  | c :: rest => (decodeURIComponent rest).map fun tl => c :: tl

/-- Value of a character in Node's lenient base64 alphabet (standard and
URL-safe); `none` for characters the decoder ignores. -/
def b64Val (c : Char) : Option Nat :=
  if 'A' ≤ c ∧ c ≤ 'Z' then some (c.toNat - 65)
  else if 'a' ≤ c ∧ c ≤ 'z' then some (c.toNat - 97 + 26)
  else if '0' ≤ c ∧ c ≤ '9' then some (c.toNat - 48 + 52)
  else if c = '+' ∨ c = '-' then some 62
  else if c = '/' ∨ c = '_' then some 63
  else none

/-- Regroup 6-bit values into bytes, dropping incomplete trailing bits,
as Node's base64 decoder does. -/
def sextetsToBytes : List Nat → List Nat
  | a :: b :: c :: d :: rest =>
    (a * 4 + b / 16) :: ((b % 16) * 16 + c / 4) :: ((c % 4) * 64 + d) :: sextetsToBytes rest
  | [a, b] => [a * 4 + b / 16]
  | [a, b, c] => [a * 4 + b / 16, (b % 16) * 16 + c / 4]
  | _ => []

/-- Node `Buffer.from(s, 'base64').toString('utf8')`: characters outside the
base64 alphabet are ignored, never an error.  Bytes are mapped to characters
codepoint-wise (exact for ASCII payloads). -/
def nodeBase64Decode (s : JStr) : JStr :=
  (sextetsToBytes (s.filterMap b64Val)).map Char.ofNat

/-- `true`/`false` as rendered by a JS template literal. -/
def jsBool (b : Bool) : JStr := if b then "true".toList else "false".toList

/-- A possibly-undefined string in a JS template literal
(`undefined` renders as the text `undefined`). -/
def tplO : Option JStr → JStr
  | none => "undefined".toList
  | some s => s

/-- A JS number (possibly `NaN`) in a template literal. -/
def tplInt : Option Int → JStr
  | none => "NaN".toList
  | some n => (toString n).toList

/-- `∃ a b, s = a ++ pat ++ b`: the pattern occurs contiguously in `s`. -/
def containsSeq (pat s : JStr) : Prop := ∃ a b, s = a ++ pat ++ b

def exIsOk : Except String α → Bool
  | .ok _ => true
  | .error _ => false

/-- Turn a modelled JS builtin result into the exception it would throw. -/
def jsTry (o : Option α) (msg : String) : Except String α :=
  match o with
  | some a => .ok a
  | none => .error msg

-- --- Canonical configuration record -------------------------------------

/-- The record produced by the four parsers in src/converter.js (the union
of the four object-literal shapes; fields a given parser does not set keep
their `undefined`-modelling defaults). -/
structure Config where
  type : JStr
  uuid : Option JStr := none
  host : Option JStr := none
  port : Option Int := none
  alterId : Option Int := none
  security : JStr := []
  flow : JStr := []
  network : JStr := []
  path : JStr := []
  host_header : Option JStr := none
  sni : Option JStr := none
  fp : JStr := []
  pbk : JStr := []
  sid : JStr := []
  spx : JStr := []
  alpn : JStr := []
  allowInsecure : Bool := false
  tls : Bool := false
  name : JStr := []
  password : Option JStr := none
  method : JStr := []
  plugin : JStr := []
  plugin_opts : JStr := []
  obfs : JStr := []
  obfsHost : JStr := []
deriving DecidableEq, Repr

-- --- Query-parameter parsing shared by parseVLESS and parseTrojan --------

/-- One pass of the `queryParams.split('&').forEach(...)` loops in
parseVLESS (src/converter.js:118-123) and parseTrojan (245-252): each pair is
split on `=`, empty keys are skipped, key and value are percent-decoded
(a thrown `URIError` aborts the parse).  Assignments are collected in
processing order; lookups take the last assignment, matching JS object
field overwriting. -/
def buildParams : List JStr → Except String (List (JStr × JStr))
  | [] => .ok []
  | pair :: rest =>
    let ps := splitc '=' pair
    let key := ps.headI
    if key = [] then buildParams rest
    else
      match decodeURIComponent key, decodeURIComponent ((ps.get? 1).getD []) with
      | some k, some v =>
        match buildParams rest with
        | .ok tl => .ok ((k, v) :: tl)
        | .error e => .error e
      | _, _ => .error "URIError"

/-- JS object lookup on the assignment list built by `buildParams`
(last assignment wins). -/
def pget (m : List (JStr × JStr)) (k : JStr) : Option JStr :=
  (m.reverse.find? fun kv => kv.1 == k).map (·.2)

-- --- parseVLESS (src/converter.js:97-156) --------------------------------

/-- Embeds `parseVLESS`.  `link.replace('vless://','')` strips the prefix
(the first occurrence is at position 0 after the startsWith check).  A
missing `@` makes the JS code call `.split` on `undefined`, a thrown
`TypeError`. -/
def parseVLESS (link : JStr) : Except String Config :=
  if ¬ ("vless://".toList.isPrefixOf link) then .error "Bukan link VLESS"
  else
    let clean := link.drop 8
    let parts := splitc '@' clean
    let userinfo := parts.headI
    match parts.get? 1 with
    | none => .error "TypeError"
    | some rest =>
      let uuid := (splitc ':' userinfo).headI
      let hp := splitc '?' rest
      let hostport := hp.headI
      let paramString := hp.get? 1
      let hpp := splitc ':' hostport
      let host := hpp.headI
      let port := hpp.get? 1
      let fragmentName : JStr :=
        if otruthy paramString then ((splitc '#' (paramString.getD [])).get? 1).getD []
        else []
      let queryParams : JStr :=
        if otruthy paramString then (splitc '#' (paramString.getD [])).headI
        else []
      match (if queryParams ≠ [] then buildParams (splitc '&' queryParams) else .ok []) with
      | .error e => .error e
      | .ok params =>
        let name : JStr :=
          if fragmentName ≠ [] then (decodeURIComponent fragmentName).getD fragmentName
          else "VLESS Server".toList
        .ok
          { type := "vless".toList
            uuid := some uuid
            host := some host
            port := jsParseIntO port
            security := jsOr (pget params "security".toList) "none".toList
            flow := jsOr (pget params "flow".toList) []
            network := jsOr (pget params "type".toList) "tcp".toList
            path := jsOr (pget params "path".toList)
              (if pget params "type".toList = some "ws".toList then "/".toList else [])
            host_header := some (jsOr (pget params "host".toList) [])
            sni := some (jsOr (pget params "sni".toList)
              (jsOr (pget params "host".toList) host))
            fp := jsOr (pget params "fp".toList) []
            pbk := jsOr (pget params "pbk".toList) []
            sid := jsOr (pget params "sid".toList) []
            spx := jsOr (pget params "spx".toList) []
            alpn := jsOr (pget params "alpn".toList) []
            allowInsecure := pget params "allowInsecure".toList = some "1".toList ∨
              pget params "allowInsecure".toList = some "true".toList
            name := name }


-- --- Flat JSON model for vmess payloads ----------------------------------

/-- A primitive JSON value as found in vmess payloads (flat objects whose
values are strings, integers, booleans or null). -/
inductive JPrim
  | jstr (s : JStr)
  | jnum (n : Int)
  | jbool (b : Bool)
  | jnull
deriving DecidableEq, Repr

/-- JSON object member lookup; `JSON.parse` keeps the last of duplicate
keys. -/
def jget (o : List (JStr × JPrim)) (k : String) : Option JPrim :=
  (o.reverse.find? fun kv => kv.1 == k.toList).map (·.2)

/-- JS truthiness of a possibly-absent JSON field. -/
def jtruthy : Option JPrim → Bool
  | none => false
  | some (.jstr s) => s ≠ []
  | some (.jnum n) => n ≠ 0
  | some (.jbool b) => b
  | some .jnull => false

/-- The string carried by a JSON field (vmess payload fields used as strings
are strings; numbers are rendered decimally as JS string coercion would). -/
def jstrVal : JPrim → JStr
  | .jstr s => s
  | .jnum n => (toString n).toList
  | .jbool b => jsBool b
  | .jnull => "null".toList

/-- JS `obj.k || d` for a JSON field and a string default. -/
def jsOrP (o : Option JPrim) (d : JStr) : JStr :=
  match o with
  | some v => if jtruthy v then jstrVal v else d
  | none => d

/-- JS `obj.a || obj.b` observed through truthiness/string value
(falsy results collapse to `none`, cf. `jsOrO`). -/
def jsOrPO (a b : Option JPrim) : Option JStr :=
  if jtruthy a then (a.map jstrVal) else if jtruthy b then (b.map jstrVal) else none

/-- JS `obj.a || obj.b || obj.c`, same observation as `jsOrPO`. -/
def jsOrPO3 (a b c : Option JPrim) : Option JStr :=
  if jtruthy a then (a.map jstrVal) else jsOrPO b c

/-- `parseInt(obj.k, 10)`: numbers pass through, strings go through
`jsParseInt`, everything else is `NaN`. -/
def jParseInt : Option JPrim → Option Int
  | some (.jnum n) => some n
  | some (.jstr s) => jsParseInt s
  | _ => none

/-- String body after an opening quote: returns the content and the rest
after the closing quote.  Escapes cover the sequences appearing in vmess
payloads. -/
def parseJString : JStr → Option (JStr × JStr)
  | [] => none
  | '"' :: rest => some ([], rest)
  | '\\' :: c :: rest =>
    match (match c with
           | '"' => some '"' | '\\' => some '\\' | '/' => some '/'
           | 'n' => some '\n' | 't' => some '\t' | 'r' => some '\r'
           | _ => none) with
    | some e => (parseJString rest).map fun p => (e :: p.1, p.2)
    | none => none
  | c :: rest => (parseJString rest).map fun p => (c :: p.1, p.2)

def jsonWs (c : Char) : Bool := c = ' ' ∨ c = '\n' ∨ c = '\t' ∨ c = '\r'

def parseJNumTail (s : JStr) : Option (Int × JStr) :=
  let ds := s.takeWhile fun c => '0' ≤ c ∧ c ≤ '9'
  if ds = [] then none
  else some ((ds.foldl (fun acc c => acc * 10 + (c.toNat - 48)) 0 : Nat), s.drop ds.length)

/-- One primitive JSON value (string, integer, boolean or null). -/
def parseJValue (s : JStr) : Option (JPrim × JStr) :=
  match s with
  | '"' :: rest => (parseJString rest).map fun p => (.jstr p.1, p.2)
  | '-' :: rest => (parseJNumTail rest).map fun p => (.jnum (-p.1), p.2)
  | _ =>
    if "true".toList.isPrefixOf s then some (.jbool true, s.drop 4)
    else if "false".toList.isPrefixOf s then some (.jbool false, s.drop 5)
    else if "null".toList.isPrefixOf s then some (.jnull, s.drop 4)
    else (parseJNumTail s).map fun p => (.jnum p.1, p.2)

/-- Members of a flat JSON object, after the opening brace.  Fuel bounds the
recursion by the input length. -/
def parseJMembers : Nat → JStr → Option (List (JStr × JPrim) × JStr)
  | 0, _ => none
  | n + 1, s =>
    match s.dropWhile jsonWs with
    | '}' :: rest => some ([], rest)
    | '"' :: rest =>
      match parseJString rest with
      | none => none
      | some (key, r1) =>
        match r1.dropWhile jsonWs with
        | ':' :: r2 =>
          match parseJValue (r2.dropWhile jsonWs) with
          | none => none
          | some (v, r3) =>
            match r3.dropWhile jsonWs with
            | ',' :: r4 =>
              match parseJMembers n r4 with
              | some (tl, r5) => some ((key, v) :: tl, r5)
              | none => none
            | '}' :: r4 => some ([(key, v)], r4)
            | _ => none
        | _ => none
    | _ => none

/-- `JSON.parse` restricted to the flat objects vmess payloads consist of
(the only JSON shape any statement below feeds to it). -/
def parseFlatJson (s : JStr) : Option (List (JStr × JPrim)) :=
  match s.dropWhile jsonWs with
  | '{' :: rest =>
    match parseJMembers (rest.length + 1) rest with
    | some (obj, r) => if r.dropWhile jsonWs = [] then some obj else none
    | none => none
  | _ => none

-- --- parseVMess (src/converter.js:158-199) -------------------------------

/-- Embeds `parseVMess`.  The source's object literal contains the key
`type` twice — `type: 'vmess'` on line 180 and `type: obj.type || 'none'` on
line 187 — and in JavaScript the later entry wins, so the record's
discriminant is `obj.type || 'none'`, not `'vmess'`. -/
def parseVMess (link : JStr) : Except String Config :=
  if ¬ ("vmess://".toList.isPrefixOf link) then .error "Bukan link VMess"
  else
    let b64 := link.drop 8
    let jsonStr := nodeBase64Decode b64
    match parseFlatJson jsonStr with
    | none => .error "Invalid VMess base64 JSON"
    | some obj =>
      let name : JStr :=
        if jtruthy (jget obj "ps") then
          let ps := jstrVal ((jget obj "ps").getD .jnull)
          (decodeURIComponent ps).getD ps
        else "VMess Server".toList
      .ok
        { type := jsOrP (jget obj "type") "none".toList
          uuid := (jget obj "id").map jstrVal
          host := (jget obj "add").map jstrVal
          port := jParseInt (jget obj "port")
          alterId := some ((jParseInt (jget obj "aid")).getD 0)
          security := jsOrP (jget obj "sc") (jsOrP (jget obj "cipher") "auto".toList)
          network := jsOrP (jget obj "net") "tcp".toList
          path := jsOrP (jget obj "path")
            (if jget obj "net" = some (.jstr "ws".toList) then "/".toList else [])
          host_header := jsOrPO (jget obj "host") (jget obj "add")
          sni := jsOrPO3 (jget obj "sni") (jget obj "host") (jget obj "add")
          tls := jget obj "tls" = some (.jstr "tls".toList)
          alpn := jsOrP (jget obj "alpn") []
          fp := jsOrP (jget obj "fp") []
          name := name }

-- --- parseTrojan (src/converter.js:201-280) ------------------------------

/-- Embeds `parseTrojan`: the manual `?`/`#` location logic, the
userinfo/serverinfo split with its truthiness guard, the explicit `isNaN`
port check (the only parser that has one), percent-decoded password. -/
def parseTrojan (link : JStr) : Except String Config :=
  if ¬ ("trojan://".toList.isPrefixOf link) then .error "Bukan link Trojan"
  else
    let cleanLink := link.drop 9
    let paramStartIndex := indexOfc '?' cleanLink
    let fragmentStartIndex := indexOfc '#' cleanLink
    let uas_param_frag : JStr × JStr × JStr :=
      match paramStartIndex, fragmentStartIndex with
      | none, none => (cleanLink, [], [])
      | some p, none => (cleanLink.take p, cleanLink.drop (p + 1), [])
      | none, some f => (cleanLink.take f, [], cleanLink.drop (f + 1))
      | some p, some f =>
        if p < f then
          (cleanLink.take p, (cleanLink.drop (p + 1)).take (f - (p + 1)), cleanLink.drop (f + 1))
        else
          (cleanLink.take p, cleanLink.drop (p + 1), [])
    let userinfo_and_serverinfo := uas_param_frag.1
    let paramString := uas_param_frag.2.1
    let fragment := uas_param_frag.2.2
    let sparts := splitc '@' userinfo_and_serverinfo
    let userinfo := sparts.headI
    let serverinfo := sparts.get? 1
    if userinfo = [] ∨ ¬ otruthy serverinfo then
      .error "Invalid Trojan link format: Missing userinfo or serverinfo"
    else
      let hpp := splitc ':' (serverinfo.getD [])
      let host := hpp.headI
      let portStr := hpp.get? 1
      match jsParseIntO portStr with
      | none => .error "Invalid Trojan link format: Invalid port"
      | some port =>
        match (if paramString ≠ [] then buildParams (splitc '&' paramString) else .ok []) with
        | .error e => .error e
        | .ok params =>
          let name : JStr :=
            if fragment ≠ [] then (decodeURIComponent fragment).getD fragment
            else "Trojan Server".toList
          match decodeURIComponent userinfo with
          | none => .error "URIError"
          | some password =>
            .ok
              { type := "trojan".toList
                password := some password
                host := some host
                port := some port
                security := "tls".toList
                network := jsOr (pget params "type".toList) "tcp".toList
                path := jsOr (pget params "path".toList)
                  (if pget params "type".toList = some "ws".toList then "/".toList else [])
                host_header := some (jsOr (pget params "host".toList) host)
                sni := some (jsOr (pget params "sni".toList)
                  (jsOr (pget params "host".toList) host))
                alpn := jsOr (pget params "alpn".toList) []
                fp := jsOr (pget params "fp".toList) []
                allowInsecure := pget params "allowInsecure".toList = some "1".toList ∨
                  pget params "allowInsecure".toList = some "true".toList
                name := name }

-- --- URLSearchParams model (used only by parseSS) ------------------------

/-- `application/x-www-form-urlencoded` decoding as done by
`URLSearchParams`: `+` becomes a space, valid `%XX` escapes are decoded
(ASCII bytes modelled), malformed escapes are kept literally (this decoder
never throws). -/
def uspDecode : JStr → JStr
  | [] => []
  | '+' :: rest => ' ' :: uspDecode rest
  | '%' :: a :: b :: rest =>
    match hexVal a, hexVal b with
    | some ha, some hb => Char.ofNat (ha * 16 + hb) :: uspDecode rest
    | _, _ => '%' :: uspDecode (a :: b :: rest)
  | c :: rest => c :: uspDecode rest
termination_by l => l.length

/-- The pair list of `new URLSearchParams(q)`: split on `&`, empty segments
skipped, key before the first `=`, value everything after it. -/
def uspPairs (q : JStr) : List (JStr × JStr) :=
  (splitc '&' q).filterMap fun seg =>
    if seg = [] then none
    else
      let ps := splitc '=' seg
      some (uspDecode ps.headI, uspDecode (List.intercalate ['='] ps.tail))

/-- `params.get(k)`: first matching pair, `none` for JS `null`. -/
def uspGet (pairs : List (JStr × JStr)) (k : String) : Option JStr :=
  (pairs.find? fun kv => kv.1 == k.toList).map (·.2)

-- --- parseSS (src/converter.js:282-346) ----------------------------------

/-- Embeds `parseSS`.  The fragment is located on the raw link before the
prefix strip.  `Buffer.from(userinfo, 'base64')` never throws, so the
source's catch branch (`Invalid Shadowsocks base64 encoding`) is
unreachable; the lenient decode result is split into method/password.
Missing `@` or `:` makes the JS code call `.split` on `undefined`
(a thrown `TypeError`). -/
def parseSS (link : JStr) : Except String Config :=
  if ¬ ("ss://".toList.isPrefixOf link) then .error "Not a Shadowsocks link"
  else
    let fragmentIndex := indexOfc '#' link
    let fragment : JStr :=
      match fragmentIndex with
      | some i => link.drop (i + 1)
      | none => []
    let clean := (link.take (fragmentIndex.getD link.length)).drop 5
    let parts := splitc '@' clean
    let userinfo := parts.headI
    match parts.get? 1 with
    | none => .error "TypeError"
    | some hostport =>
      let hpp := splitc ':' hostport
      let host := hpp.headI
      match hpp.get? 1 with
      | none => .error "TypeError"
      | some portWithParams =>
        let qparts := splitc '?' portWithParams
        let portPart := qparts.headI
        let paramParts := qparts.tail
        let port := jsParseInt portPart
        let decoded := nodeBase64Decode userinfo
        let mp := (splitc ':' decoded).take 2
        let method := mp.headI
        let password := mp.get? 1
        let plugin_all : JStr × JStr × JStr × JStr :=
          if paramParts ≠ [] then
            let params := uspPairs (List.intercalate ['?'] paramParts)
            let rawPlugin := jsOr (uspGet params "plugin") []
            let pp : JStr × JStr :=
              if rawPlugin ≠ [] then
                let prts := splitc ';' rawPlugin
                (prts.headI, List.intercalate [';'] prts.tail)
              else ([], [])
            (pp.1, pp.2, jsOr (uspGet params "obfs") [], jsOr (uspGet params "obfs-host") [])
          else ([], [], [], [])
        let name : JStr :=
          if fragment ≠ [] then (decodeURIComponent fragment).getD fragment
          else "SS Server".toList
        .ok
          { type := "ss".toList
            method := method
            password := password
            host := some host
            port := port
            plugin := plugin_all.1
            plugin_opts := plugin_all.2.1
            obfs := plugin_all.2.2.1
            obfsHost := plugin_all.2.2.2
            name := name }

-- --- parseAnyLink (src/converter.js:348-363) -----------------------------

/-- Embeds `parseAnyLink` (the non-string input case is not representable
for a `JStr` argument). -/
def parseAnyLink (link : JStr) : Except String Config :=
  if link = [] then .error "Link must be a non-empty string"
  else if link.length > 2000 then .error "Link is too long"
  else if "vless://".toList.isPrefixOf link then parseVLESS link
  else if "vmess://".toList.isPrefixOf link then parseVMess link
  else if "trojan://".toList.isPrefixOf link then parseTrojan link
  else if "ss://".toList.isPrefixOf link then parseSS link
  else .error "Unsupported protocol. Supported: vless, vmess, trojan, ss"


-- --- toClash (src/converter.js:366-478) ----------------------------------

/-- A value in the clash `plugin-opts` mapping: the bare `tls` option maps
to boolean `true`, other options keep their string value. -/
inductive POptVal
  | pb (b : Bool)
  | ps (s : JStr)
deriving DecidableEq, Repr

/-- The mapping built from `config.plugin_opts.split(';')` at
src/converter.js:445-455: empty parts skipped, `tls` keyed to `true`,
options whose value is empty dropped.  Insertion order is kept (duplicate
keys are not distinguished by any statement below). -/
def buildPluginOpts (po : JStr) : List (JStr × POptVal) :=
  (splitc ';' po).filterMap fun part =>
    if part = [] then none
    else
      let ps := splitc '=' part
      let key := ps.headI
      let value := List.intercalate ['='] ps.tail
      if key = "tls".toList then some (key, .pb true)
      else if value ≠ [] then some (key, .ps value)
      else none

/-- The object handed to `yaml.dump` by `toClash`; field names follow the
JS keys (`type`, `skip-cert-verify`, `servername`, `client-fingerprint`,
`ws-path`, `ws-headers.host`, `plugin-opts`, ...), fields a branch does not
assign stay `none` (absent key). -/
structure ClashObj where
  name : JStr
  type : JStr
  server : Option JStr
  port : Option Int
  udp : Bool
  skipCertVerify : Bool
  uuid : Option JStr := none
  tls : Option Bool := none
  servername : Option JStr := none
  alpn : Option (List JStr) := none
  fingerprint : Option JStr := none
  clientFingerprint : Option JStr := none
  publicKey : Option JStr := none
  shortId : Option JStr := none
  spiderX : Option JStr := none
  flow : Option JStr := none
  network : Option JStr := none
  wsPath : Option JStr := none
  wsHeadersHost : Option JStr := none
  alterId : Option Int := none
  cipher : Option JStr := none
  password : Option JStr := none
  sni : Option JStr := none
  plugin : Option JStr := none
  pluginOpts : Option (List (JStr × POptVal)) := none
deriving DecidableEq, Repr

/-- The shared ws block of the clash serializer
(`network`/`ws-path`/`ws-headers`). -/
def clashWs (config : Config) (c : ClashObj) : ClashObj :=
  if config.network = "ws".toList then
    let c := { c with network := some "ws".toList,
                      wsPath := some (if config.path = [] then "/".toList else config.path) }
    if otruthy config.host_header then { c with wsHeadersHost := config.host_header } else c
  else c

/-- Embeds `toClash` up to (but faithfully including everything before) the
final `yaml.dump` library call: the returned object is exactly the one the
source dumps.  The `default` switch branch throws. -/
def toClash (config : Config) : Except String ClashObj :=
  let base : ClashObj :=
    { name := config.name, type := config.type, server := config.host,
      port := config.port, udp := true, skipCertVerify := config.allowInsecure }
  if config.type = "vless".toList then
    let c := { base with uuid := config.uuid,
                         tls := some (config.security = "tls".toList ∨
                                      config.security = "reality".toList) }
    let c :=
      if c.tls = some true then
        let c := if otruthy config.sni then { c with servername := config.sni } else c
        let c := if config.alpn ≠ [] then
            { c with alpn := some ((splitc ',' config.alpn).map trimJ) } else c
        let c := if config.fp ≠ [] then { c with fingerprint := some config.fp } else c
        if config.security = "reality".toList then
          let c := { c with clientFingerprint := some config.fp }
          let c := if config.pbk ≠ [] then { c with publicKey := some config.pbk } else c
          let c := if config.sid ≠ [] then { c with shortId := some config.sid } else c
          if config.spx ≠ [] then { c with spiderX := some config.spx } else c
        else if config.security = "tls".toList then
          if config.flow ≠ [] then { c with flow := some config.flow } else c
        else c
      else c
    .ok (clashWs config c)
  else if config.type = "vmess".toList then
    let c := { base with uuid := config.uuid, alterId := config.alterId,
                         cipher := some config.security, tls := some config.tls }
    let c :=
      if c.tls = some true then
        let c := if otruthy config.sni then { c with servername := config.sni } else c
        let c := if config.alpn ≠ [] then
            { c with alpn := some ((splitc ',' config.alpn).map trimJ) } else c
        if config.fp ≠ [] then { c with fingerprint := some config.fp } else c
      else c
    .ok (clashWs config c)
  else if config.type = "trojan".toList then
    let c := { base with password := config.password, tls := some true }
    let c := if otruthy config.sni then { c with sni := config.sni } else c
    let c := if config.alpn ≠ [] then
        { c with alpn := some ((splitc ',' config.alpn).map trimJ) } else c
    let c := if config.fp ≠ [] then { c with fingerprint := some config.fp } else c
    .ok (clashWs config c)
  else if config.type = "ss".toList then
    let c := { base with cipher := some config.method, password := config.password }
    let c :=
      if config.plugin ≠ [] then
        let c := { c with plugin := some config.plugin }
        let opts := buildPluginOpts config.plugin_opts
        if opts ≠ [] then { c with pluginOpts := some opts }
        else if config.obfs ≠ [] then
          { c with pluginOpts := some [("mode".toList, .ps config.obfs),
                                       ("host".toList, .ps config.obfsHost)] }
        else c
      else c
    .ok c
  else
    .error ("Tidak dapat mengkonversi protokol '" ++ String.mk config.type ++
            "' ke format Clash.")

-- --- toSurge (src/converter.js:480-532) ----------------------------------

/-- The ws option suffix shared by the surge branches. -/
def surgeWs (config : Config) (hdr : JStr) : JStr :=
  if config.network = "ws".toList then
    ", ws=true, ws-path=".toList ++ config.path ++
    (if otruthy config.host_header then hdr ++ tplO config.host_header else [])
  else []

/-- Embeds `toSurge`: one delimited line per scheme, option string built
incrementally exactly as in the source; unknown types throw. -/
def toSurge (config : Config) : Except String JStr :=
  if config.type = "vless".toList then
    let opts := "skip-cert-verify=".toList ++ jsBool config.allowInsecure
    let opts := opts ++
      (if config.security = "tls".toList then
        ", tls=true, sni=".toList ++ tplO config.sni ++
        (if config.alpn ≠ [] then ", alpn=".toList ++ config.alpn else []) ++
        (if config.fp ≠ [] then ", server-cert-fingerprint-sha256=".toList ++ config.fp else [])
      else if config.security = "reality".toList then
        ", tls=true, sni=".toList ++ tplO config.sni
      else [])
    let opts := opts ++ (if config.flow ≠ [] then ", flow=".toList ++ config.flow else [])
    let opts := opts ++ surgeWs config ", ws-headers=host:".toList
    .ok (config.name ++ " = vless, ".toList ++ tplO config.host ++ ", ".toList ++
         tplInt config.port ++ ", username=".toList ++ tplO config.uuid ++ ", ".toList ++ opts)
  else if config.type = "vmess".toList then
    let opts := "skip-cert-verify=".toList ++ jsBool config.allowInsecure
    let opts := opts ++
      (if config.tls then
        ", tls=true, sni=".toList ++ tplO config.sni ++
        (if config.alpn ≠ [] then ", alpn=".toList ++ config.alpn else []) ++
        (if config.fp ≠ [] then ", server-cert-fingerprint-sha256=".toList ++ config.fp else [])
      else [])
    let opts := opts ++ surgeWs config ", ws-headers=host:".toList
    .ok (config.name ++ " = vmess, ".toList ++ tplO config.host ++ ", ".toList ++
         tplInt config.port ++ ", username=".toList ++ tplO config.uuid ++ ", ".toList ++ opts)
  else if config.type = "trojan".toList then
    let opts := "skip-cert-verify=".toList ++ jsBool config.allowInsecure
    let opts := opts ++ ", sni=".toList ++ tplO config.sni
    let opts := opts ++ (if config.alpn ≠ [] then ", alpn=".toList ++ config.alpn else [])
    let opts := opts ++
      (if config.fp ≠ [] then ", server-cert-fingerprint-sha256=".toList ++ config.fp else [])
    let opts := opts ++ surgeWs config ", ws-headers=host:".toList
    .ok (config.name ++ " = trojan, ".toList ++ tplO config.host ++ ", ".toList ++
         tplInt config.port ++ ", password=".toList ++ tplO config.password ++ ", ".toList ++ opts)
  else if config.type = "ss".toList then
    if config.plugin ≠ [] then
      .ok (config.name ++ " = custom, ".toList ++ tplO config.host ++ ", ".toList ++
           tplInt config.port ++ ", ".toList ++ config.method ++ ", ".toList ++
           tplO config.password ++
           ", https://raw.githubusercontent.com/ConnersHua/SSEncrypt/master/SSEncrypt.module".toList)
    else
      .ok (config.name ++ " = ss, ".toList ++ tplO config.host ++ ", ".toList ++
           tplInt config.port ++ ", ".toList ++ config.method ++ ", ".toList ++
           tplO config.password)
  else
    .error ("Unsupported type for Surge: " ++ String.mk config.type)

-- --- toQuantumult (src/converter.js:534-584) -----------------------------

/-- The ws option suffix shared by the quantumult branches
(`ws-header`, singular, unlike surge). -/
def quanWs (config : Config) : JStr :=
  if config.network = "ws".toList then
    ", ws=true, ws-path=".toList ++ config.path ++
    (if otruthy config.host_header then ", ws-header=host:".toList ++ tplO config.host_header
     else [])
  else []

/-- Embeds `toQuantumult`: vless and vmess share the `vmess=` line type with
`method=none`; unknown types throw. -/
def toQuantumult (config : Config) : Except String JStr :=
  if config.type = "vless".toList then
    let opts := "skip-cert-verify=".toList ++ jsBool config.allowInsecure
    let opts := opts ++
      (if config.security = "tls".toList then
        ", tls=true, sni=".toList ++ tplO config.sni ++
        (if config.alpn ≠ [] then ", alpn=".toList ++ config.alpn else []) ++
        (if config.fp ≠ [] then ", tls-cert-sha256=".toList ++ config.fp else [])
      else if config.security = "reality".toList then
        ", tls=true, sni=".toList ++ tplO config.sni
      else [])
    let opts := opts ++ (if config.flow ≠ [] then ", flow=".toList ++ config.flow else [])
    let opts := opts ++ quanWs config
    .ok ("vmess=".toList ++ tplO config.host ++ ":".toList ++ tplInt config.port ++
         ", method=none, password=".toList ++ tplO config.uuid ++ ", ".toList ++ opts ++
         ", tag=".toList ++ config.name)
  else if config.type = "vmess".toList then
    let opts := "skip-cert-verify=".toList ++ jsBool config.allowInsecure
    let opts := opts ++
      (if config.tls then
        ", tls=".toList ++ jsBool config.tls ++ ", sni=".toList ++ tplO config.sni ++
        (if config.alpn ≠ [] then ", alpn=".toList ++ config.alpn else []) ++
        (if config.fp ≠ [] then ", tls-cert-sha256=".toList ++ config.fp else [])
      else [])
    let opts := opts ++ quanWs config
    .ok ("vmess=".toList ++ tplO config.host ++ ":".toList ++ tplInt config.port ++
         ", method=none, password=".toList ++ tplO config.uuid ++ ", ".toList ++ opts ++
         ", tag=".toList ++ config.name)
  else if config.type = "trojan".toList then
    let opts := "skip-cert-verify=".toList ++ jsBool config.allowInsecure
    let opts := opts ++ ", over-tls=true, tls-host=".toList ++ tplO config.sni
    let opts := opts ++ (if config.alpn ≠ [] then ", alpn=".toList ++ config.alpn else [])
    let opts := opts ++ (if config.fp ≠ [] then ", tls-cert-sha256=".toList ++ config.fp else [])
    let opts := opts ++ quanWs config
    .ok ("trojan=".toList ++ tplO config.host ++ ":".toList ++ tplInt config.port ++
         ", password=".toList ++ tplO config.password ++ ", ".toList ++ opts ++
         ", tag=".toList ++ config.name)
  else if config.type = "ss".toList then
    let opts := "encrypt-method=".toList ++ config.method ++
      ", password=".toList ++ tplO config.password
    let opts := opts ++
      (if config.obfs ≠ [] then
        ", obfs=".toList ++ config.obfs ++ ", obfs-host=".toList ++ config.obfsHost
      else [])
    .ok ("shadowsocks=".toList ++ tplO config.host ++ ":".toList ++ tplInt config.port ++
         ", method=".toList ++ config.method ++ ", password=".toList ++ tplO config.password ++
         ", ".toList ++ opts ++ ", tag=".toList ++ config.name)
  else
    .error ("Unsupported type for Quantumult: " ++ String.mk config.type)

-- --- toSingBox (src/converter.js:586-671) --------------------------------

structure SbTransport where
  type : JStr
  path : Option JStr := none
  headersHost : Option JStr := none
  serviceName : Option JStr := none
deriving DecidableEq, Repr

structure SbUtls where
  enabled : Bool
  fingerprint : JStr
deriving DecidableEq, Repr

structure SbReality where
  enabled : Bool
  publicKey : JStr
  shortId : JStr
deriving DecidableEq, Repr

structure SbTls where
  enabled : Bool
  serverName : Option JStr := none
  insecure : Option Bool := none
  alpn : Option (List JStr) := none
  utls : Option SbUtls := none
  reality : Option SbReality := none
  flow : Option JStr := none
deriving DecidableEq, Repr

/-- The object handed to `JSON.stringify` by `toSingBox` (field names follow
the JS keys: `tag`, `server_port`, `alter_id`, `tls.server_name`, ...). -/
structure SbObj where
  tag : JStr
  type : JStr
  server : Option JStr
  serverPort : Option Int
  uuid : Option JStr := none
  alterId : Option Int := none
  transport : Option SbTransport := none
  tls : Option SbTls := none
  password : Option JStr := none
  method : Option JStr := none
  plugin : Option JStr := none
  pluginOpts : Option JStr := none
deriving DecidableEq, Repr

/-- Embeds `toSingBox` up to the final `JSON.stringify` call: the returned
object is exactly the one the source stringifies.  This serializer never
throws: a record whose `type` matches no branch is returned with only the
base fields.  `config.serviceName` is read by the grpc branch although no
parser ever sets it (JS `undefined || ''`). -/
def toSingBox (config : Config) : SbObj :=
  let base : SbObj :=
    { tag := config.name,
      type := if config.type = "ss".toList then "shadowsocks".toList else config.type,
      server := config.host, serverPort := config.port }
  if config.type = "vless".toList ∨ config.type = "vmess".toList then
    let b := { base with uuid := config.uuid }
    let b := if config.type = "vmess".toList then { b with alterId := config.alterId } else b
    let b :=
      if config.network = "ws".toList then
        { b with transport := some (
            { type := "ws".toList,
              path := some (if config.path = [] then "/".toList else config.path),
              headersHost := if otruthy config.host_header then config.host_header else none
              : SbTransport }) }
      else b
    let b :=
      if config.network = "grpc".toList then
        { b with transport := some { type := "grpc".toList, serviceName := some [] } }
      else b
    let b :=
      if config.security = "tls".toList ∨ config.security = "reality".toList ∨ config.tls then
        let t : SbTls :=
          { enabled := true,
            serverName := jsOrO config.sni config.host,
            insecure := some config.allowInsecure }
        let t := if config.alpn ≠ [] then
            { t with alpn := some (((splitc ',' config.alpn).map trimJ).filter (· ≠ [])) }
          else t
        let t :=
          if config.security = "reality".toList then
            { t with utls := some { enabled := true,
                                    fingerprint := if config.fp = [] then "chrome".toList
                                                   else config.fp },
                     reality := some { enabled := true, publicKey := config.pbk,
                                       shortId := config.sid },
                     flow := some (if config.flow = [] then [] else config.flow) }
          else if config.security = "tls".toList then
            let t := { t with utls := some { enabled := true,
                                             fingerprint := if config.fp = [] then "chrome".toList
                                                            else config.fp } }
            if config.flow ≠ [] then { t with flow := some config.flow } else t
          else t
        { b with tls := some t }
      else
        { b with tls := some { enabled := false } }
    if config.security = "none".toList ∧ ¬ config.tls then
      { b with tls := some { enabled := false } }
    else b
  else if config.type = "trojan".toList then
    let b := { base with password := config.password }
    let b :=
      if config.network = "ws".toList then
        { b with transport := some (
            { type := "ws".toList,
              path := some (if config.path = [] then "/".toList else config.path),
              headersHost := if otruthy config.host_header then config.host_header else none
              : SbTransport }) }
      else b
    let t : SbTls :=
      { enabled := true,
        serverName := jsOrO config.sni config.host,
        insecure := some config.allowInsecure,
        utls := some { enabled := true,
                       fingerprint := if config.fp = [] then "chrome".toList else config.fp } }
    let t := if config.alpn ≠ [] then
        { t with alpn := some (((splitc ',' config.alpn).map trimJ).filter (· ≠ [])) }
      else t
    { b with tls := some t }
  else if config.type = "ss".toList then
    let b := { base with method := some config.method, password := config.password }
    if config.plugin ≠ [] then
      let b := { b with plugin := some config.plugin }
      if config.plugin_opts ≠ [] then { b with pluginOpts := some config.plugin_opts } else b
    else b
  else base

-- --- processLinks (src/converter.js:706-743) ------------------------------

/-- The per-link fragment set (`formats`) of a successful batch entry.
`clash` and `singbox` are the objects the source serializes (see `toClash`
and `toSingBox`); `surge` and `quantumult` are the emitted lines. -/
structure Formats where
  clash : ClashObj
  surge : JStr
  quantumult : JStr
  singbox : SbObj
deriving DecidableEq, Repr

/-- One element of the array `processLinks` returns: either the converted
record with its fragment set, original link and generated tag, or the error
message together with the raw link. -/
inductive BatchEntry
  | success (original : Config) (formats : Formats) (link : JStr) (tag : JStr)
  | failure (error : String) (link : JStr)
deriving DecidableEq, Repr

/-- The raw link text carried by either kind of entry. -/
def entryLink : BatchEntry → JStr
  | .success _ _ l _ => l
  | .failure _ l => l

/-- `parsed.name || "Proxy Server"` (src/converter.js:714). -/
def displayNameOf (parsed : Config) : JStr :=
  if parsed.name = [] then "Proxy Server".toList else parsed.name

/-- The try-block body of the `processLinks` loop for the link at 0-based
index `idx`: parse, build the tagged config, run all four serializers (in
the source's object-literal order: clash first, so a clash error is the one
reported). -/
def convertOne (singleLink : JStr) (idx startIndex : Nat) :
    Except String (Config × Formats × JStr) :=
  match parseAnyLink singleLink with
  | .error e => .error e
  | .ok parsed =>
    let originalName := displayNameOf parsed
    let configName := originalName ++ "-".toList ++ (Nat.repr (startIndex + idx + 1)).toList ++
      " [vortexVpn]".toList
    let config := { parsed with
      name := configName,
      network := if parsed.network = [] then "tcp".toList else parsed.network }
    match toClash config with
    | .error e => .error e
    | .ok clash =>
      match toSurge config with
      | .error e => .error e
      | .ok surge =>
        match toQuantumult config with
        | .error e => .error e
        | .ok quantumult =>
          .ok (config, { clash := clash, surge := surge, quantumult := quantumult,
                         singbox := toSingBox config }, configName)

/-- One iteration of the loop: the catch turns any error into a failure
entry carrying the raw link, and the loop continues. -/
def processOne (singleLink : JStr) (idx startIndex : Nat) : BatchEntry :=
  match convertOne singleLink idx startIndex with
  | .ok (config, formats, tag) => .success config formats singleLink tag
  | .error e => .failure e singleLink

def processLinksAux (startIndex i : Nat) : List JStr → List BatchEntry
  | [] => []
  | l :: rest => processOne l i startIndex :: processLinksAux startIndex (i + 1) rest

/-- Embeds `processLinks` (the `startIndex` parameter defaults to 0 at every
call site in the source). -/
def processLinks (links : List JStr) (startIndex : Nat) : List BatchEntry :=
  processLinksAux startIndex 0 links

-- --- extractLinks (src/converter.js:674-704) ------------------------------

/-- The per-segment keep test of `extractLinks`
(src/converter.js:688). -/
def extractKeep (l : JStr) : Bool :=
  decide (30 < l.length) && (l.contains '@' || l.contains '#')

/-- Embeds `extractLinks` (GET mode): split the raw input on commas, trim,
drop empties, keep only segments passing `extractKeep`; empty input and an
empty result both throw. -/
def extractLinks (rawInput : JStr) : Except String (List JStr) :=
  if rawInput = [] then .error "Input link tidak valid."
  else
    let potentialLinks := ((splitc ',' rawInput).map trimJ).filter (· ≠ [])
    let extractedLinks := potentialLinks.filter extractKeep
    if extractedLinks = [] then .error "Tidak ditemukan link VPN yang valid dalam input GET."
    else .ok extractedLinks

-- --- TemplateSystem.loadTemplate (src/converter.js:43-77) -----------------

/-- `extensionMap[format] || 'hbs'`. -/
def extensionMap (format : String) : String :=
  if format = "clash" then "yaml.hbs"
  else if format = "singbox" then "json.hbs"
  else if format = "surge" then "ini.hbs"
  else if format = "quantumult" then "ini.hbs"
  else "hbs"

/-- The template cache, keyed by `format:level`.  A cached template is
modelled by its source text (`Handlebars.compile` is an external library
call whose result is determined by the source text). -/
abbrev TemplateCache := List ((String × String) × String)

def cacheLookup (cache : TemplateCache) (key : String × String) : Option String :=
  (cache.find? fun kv => kv.1 == key).map (·.2)

/-- Embeds `TemplateSystem.loadTemplate`.  `fs format name` models the
`fs.readFile` of `templates/<format>/<name>` (`.error` carries the read
error message).  On a cache miss and read failure, a non-`basic` level
retries once with `basic`; a failing `basic` read throws the wrapping
error.  Success stores the compiled template under the key of the call that
succeeded, as the source does. -/
def loadTemplate (fs : String → String → Except String String) (cache : TemplateCache)
    (format level : String) : Except String (String × TemplateCache) :=
  match cacheLookup cache (format, level) with
  | some t => .ok (t, cache)
  | none =>
    let templateName := level ++ "." ++ extensionMap format
    match fs format templateName with
    | .ok source => .ok (source, ((format, level), source) :: cache)
    | .error e =>
      if _h : level ≠ "basic" then loadTemplate fs cache format "basic"
      else .error ("Template for " ++ format ++ " at level " ++ level ++
                   " could not be loaded. Original error: " ++ e)
termination_by if level = "basic" then 0 else 1
decreasing_by simp_all

-- --- Concrete links used by the code_bug / counterexample theorems --------

/-- A well-formed vmess link: base64 of
`{"id":"u1","add":"h.com","port":"443","net":"tcp","ps":"srv"}`. -/
def vmessLink1 : JStr :=
  "vmess://eyJpZCI6InUxIiwiYWRkIjoiaC5jb20iLCJwb3J0IjoiNDQzIiwibmV0IjoidGNwIiwicHMiOiJzcnYifQ==".toList


/-- The tag of a successful batch entry (`none` for a failure entry). -/
def entryTag : BatchEntry → Option JStr
  | .success _ _ _ t => some t
  | .failure _ _ => none

/-- A vless link whose port segment `xx` does not parse as an integer. -/
def vlessBadPortLink : JStr := "vless://u@h.com:xx".toList

/-- A reality-mode vless link carrying no `fp` parameter. -/
def vlessRealityNoFpLink : JStr :=
  "vless://u@h.com:443?security=reality&pbk=k&sid=1#n".toList

/-- An ss link whose userinfo `!!!` is not valid base64. -/
def ssBadBase64Link : JStr := "ss://!!!@h.com:443#x".toList

-- --- Lemma kit for the string-splitting model -----------------------------

theorem splitc_ne_nil (c : Char) (l : JStr) : splitc c l ≠ [] := by
  cases l with
  | nil => simp [splitc]
  | cons a rest => simp only [splitc]; split <;> simp

theorem splitc_no_sep {c : Char} {l : JStr} (h : c ∉ l) : splitc c l = [l] := by
  induction l with
  | nil => rfl
  | cons a rest ih =>
    have hac : ¬ (a = c) := by rintro rfl; exact h (List.mem_cons_self _ _)
    have h2 : c ∉ rest := fun hm => h (List.mem_cons_of_mem _ hm)
    simp [splitc, hac, ih h2]

theorem splitc_sep_append {c : Char} {l : JStr} (r : JStr) (h : c ∉ l) :
    splitc c (l ++ c :: r) = l :: splitc c r := by
  induction l with
  | nil => simp [splitc]
  | cons a rest ih =>
    have hac : ¬ (a = c) := by rintro rfl; exact h (List.mem_cons_self _ _)
    have h2 : c ∉ rest := fun hm => h (List.mem_cons_of_mem _ hm)
    simp [splitc, hac, ih h2]

theorem indexOfc_eq_none {c : Char} {l : JStr} (h : c ∉ l) : indexOfc c l = none := by
  induction l with
  | nil => rfl
  | cons a rest ih =>
    have hac : ¬ (a = c) := by rintro rfl; exact h (List.mem_cons_self _ _)
    have h2 : c ∉ rest := fun hm => h (List.mem_cons_of_mem _ hm)
    simp [indexOfc, hac, ih h2]

theorem isPrefixOf_append (p r : JStr) : p.isPrefixOf (p ++ r) = true := by
  induction p with
  | nil => simp [List.isPrefixOf]
  | cons a rest ih => simp [List.isPrefixOf, ih]

theorem drop_len_append {p : JStr} {n : Nat} (x : JStr) (h : p.length = n) :
    (p ++ x).drop n = x := by
  subst h; exact List.drop_left _ _

-- --- C1 and C2: the vmess duplicate `type` key ---------------------------

/-- C1.  The claim states that for every valid link of each of the four
schemes, every one of the four serializers produces a fragment containing
the link's host and port.  The code violates this for vmess: because the
object literal in `parseVMess` assigns `type` twice (line 180 `'vmess'`,
line 187 `obj.type || 'none'`), the parsed record's discriminant is
`'none'`, and the clash, surge and quantumult serializers all throw on the
record of a perfectly well-formed vmess link instead of producing any
fragment.  `vmessLink1` parses successfully with host `h.com` and port 443,
yet three of the four serializers reject it. -/
theorem c1_vmess_conversion_fails :
    (parseVMess vmessLink1).map Config.host = .ok (some "h.com".toList) ∧
    (parseVMess vmessLink1).map Config.port = .ok (some 443) ∧
    exIsOk ((parseVMess vmessLink1).bind toClash) = false ∧
    exIsOk ((parseVMess vmessLink1).bind toSurge) = false ∧
    exIsOk ((parseVMess vmessLink1).bind toQuantumult) = false := by
  refine ⟨by decide, by decide, by decide, by decide, by decide⟩

/-- C2.  The claim states the scheme discriminant of the record equals the
scheme of the link's prefix and is set exactly once at parse time.  For the
well-formed vmess link `vmessLink1` the parsed record's `type` is `'none'`,
not `'vmess'`: the discriminant is assigned twice inside `parseVMess`'s
object literal and the second assignment (`obj.type || 'none'`) wins, so
the serializers dispatch on a discriminant that does not name the link's
scheme. -/
theorem c2_vmess_scheme_discriminant_wrong :
    (parseVMess vmessLink1).map Config.type = .ok "none".toList ∧
    "none".toList ≠ "vmess".toList := by
  exact ⟨by decide, by decide⟩

-- --- Small rfl lemmas used by the universal parser theorems ---------------

@[simp] theorem pget_nil (k : JStr) : pget [] k = none := rfl

@[simp] theorem jsOr_none (d : JStr) : jsOr none d = d := rfl

@[simp] theorem jsParseIntO_some (s : JStr) : jsParseIntO (some s) = jsParseInt s := rfl

@[simp] theorem jsParseIntO_none : jsParseIntO none = none := rfl

@[simp] theorem otruthy_none : otruthy none = false := rfl

@[simp] theorem otruthy_some (s : JStr) : otruthy (some s) = decide (s ≠ []) := rfl

@[simp] theorem exIsOk_ok (a : α) : exIsOk (Except.ok a : Except String α) = true := rfl

@[simp] theorem exIsOk_error (e : String) :
    exIsOk (Except.error e : Except String α) = false := rfl

-- --- C3: port validation -------------------------------------------------

/-- C3 counterexample.  The claim says a link whose port segment does not
parse as an integer yields a diagnostic in all four schemes and the record
never reaches a serializer.  For the vless link `vless://u@h.com:xx`,
parsing succeeds (no diagnostic), the record carries a `NaN` port, and the
whole conversion pipeline (`convertOne`: all four serializers) consumes the
record successfully. -/
theorem c3_counterexample :
    (parseVLESS vlessBadPortLink).map Config.port = .ok none ∧
    exIsOk (convertOne vlessBadPortLink 0 0) = true := by
  exact ⟨by decide, by decide⟩

/-- C3 amended.  Of the four parsers, only `parseTrojan` rejects a link
whose port segment does not parse as an integer; `parseVLESS` (like
`parseVMess` and `parseSS`, which perform no check either) succeeds on the
same host/port shape, records a `NaN` port, and the record does reach the
serializers (`toClash` accepts it).  Stated for an arbitrary
userinfo/host/port decomposition free of the structural delimiters. -/
theorem c3_amended (u h p : JStr)
    (hu : u ≠ [])
    (hau : '@' ∉ u) (hah : '@' ∉ h) (hap : '@' ∉ p)
    (hch : ':' ∉ h) (hcp : ':' ∉ p)
    (hqu : '?' ∉ u) (hqh : '?' ∉ h) (hqp : '?' ∉ p)
    (hfu : '#' ∉ u) (hfh : '#' ∉ h) (hfp : '#' ∉ p)
    (hport : jsParseInt p = none) :
    parseTrojan ("trojan://".toList ++ (u ++ ('@' :: (h ++ (':' :: p)))))
      = .error "Invalid Trojan link format: Invalid port" ∧
    ∃ r, parseVLESS ("vless://".toList ++ (u ++ ('@' :: (h ++ (':' :: p))))) = .ok r ∧
      r.port = none ∧ exIsOk (toClash r) = true := by
  have hA : splitc '@' (u ++ ('@' :: (h ++ (':' :: p)))) = [u, h ++ (':' :: p)] := by
    rw [splitc_sep_append _ hau, splitc_no_sep (by simp [hah, hap])]
  have hC : splitc ':' (h ++ (':' :: p)) = [h, p] := by
    rw [splitc_sep_append _ hch, splitc_no_sep hcp]
  constructor
  · have hQ : indexOfc '?' (u ++ ('@' :: (h ++ (':' :: p)))) = none :=
      indexOfc_eq_none (by simp [hqu, hqh, hqp])
    have hF : indexOfc '#' (u ++ ('@' :: (h ++ (':' :: p)))) = none :=
      indexOfc_eq_none (by simp [hfu, hfh, hfp])
    simp only [parseTrojan, isPrefixOf_append, Bool.not_true, Bool.false_eq_true,
      if_false, drop_len_append _ (by decide : ("trojan://".toList).length = 9),
      hQ, hF, hA, hC]
    simp [otruthy, hu, hport, hC, jsParseIntO]
  · have hQ2 : splitc '?' (h ++ (':' :: p)) = [h ++ (':' :: p)] :=
      splitc_no_sep (by simp [hqh, hqp])
    simp [parseVLESS, isPrefixOf_append,
      drop_len_append _ (by decide : ("vless://".toList).length = 8),
      hA, hQ2, hC, jsParseIntO, hport, toClash, clashWs, jsOr]

theorem c3_amended_witness :
    jsParseInt "xx".toList = none ∧
    (parseTrojan ("trojan://".toList ++ ("u".toList ++ ('@' :: ("h.com".toList ++ (':' :: "xx".toList)))))
       = .error "Invalid Trojan link format: Invalid port" ∧
     ∃ r, parseVLESS ("vless://".toList ++ ("u".toList ++ ('@' :: ("h.com".toList ++ (':' :: "xx".toList))))) = .ok r ∧
       r.port = none ∧ exIsOk (toClash r) = true) :=
  ⟨by decide,
   c3_amended "u".toList "h.com".toList "xx".toList (by decide) (by decide) (by decide)
     (by decide) (by decide) (by decide) (by decide) (by decide) (by decide) (by decide)
     (by decide) (by decide) (by decide)⟩

-- --- C4 and C5: batch processing ----------------------------------------

theorem processLinksAux_length (si i : Nat) (links : List JStr) :
    (processLinksAux si i links).length = links.length := by
  induction links generalizing i with
  | nil => rfl
  | cons l rest ih => simp [processLinksAux, ih]

theorem processLinksAux_get? (si i : Nat) (links : List JStr) (k : Nat) :
    (processLinksAux si i links).get? k
      = (links.get? k).map fun l => processOne l (i + k) si := by
  induction links generalizing i k with
  | nil => simp [processLinksAux]
  | cons l rest ih =>
    cases k with
    | zero => simp [processLinksAux]
    | succ k =>
      have hik : i + (k + 1) = (i + 1) + k := by omega
      simp only [processLinksAux, List.get?_cons_succ, ih (i + 1) k, hik]

/-- C4.  `processLinks` returns exactly one entry per input link, in input
order: the output has the input's length, the `k`-th output entry is the
processing of the `k`-th input link, every entry carries its link's raw
text, and whenever conversion of that link fails with some message the
entry is the failure entry carrying that message and the raw link — the
remaining links are unaffected (the statement holds at every index of every
batch, whatever subset of links is valid). -/
theorem c4_batch_shape (links : List JStr) (k : Nat) (l : JStr)
    (hl : links.get? k = some l) :
    (processLinks links 0).length = links.length ∧
    (processLinks links 0).get? k = some (processOne l k 0) ∧
    entryLink (processOne l k 0) = l ∧
    ∀ msg, convertOne l k 0 = .error msg → processOne l k 0 = .failure msg l := by
  refine ⟨processLinksAux_length 0 0 links, ?_, ?_, ?_⟩
  · rw [processLinks, processLinksAux_get?, hl]
    simp
  · unfold processOne
    cases hc : convertOne l k 0 with
    | ok v => simp [entryLink]
    | error e => simp [entryLink]
  · intro msg hmsg
    simp [processOne, hmsg]

theorem c4_batch_shape_witness :
    (["vless://u@h.com:443#a".toList, "bad".toList].get? 1 = some "bad".toList) ∧
    (processLinks ["vless://u@h.com:443#a".toList, "bad".toList] 0).length = 2 ∧
    (processLinks ["vless://u@h.com:443#a".toList, "bad".toList] 0).get? 1
      = some (processOne "bad".toList 1 0) ∧
    entryLink (processOne "bad".toList 1 0) = "bad".toList ∧
    processOne "bad".toList 1 0
      = .failure "Unsupported protocol. Supported: vless, vmess, trojan, ss" "bad".toList := by
  have h := c4_batch_shape ["vless://u@h.com:443#a".toList, "bad".toList] 1 "bad".toList
    (by decide)
  exact ⟨by decide, h.1, h.2.1, h.2.2.1, h.2.2.2 _ (by decide)⟩

/-- C5.  For every batch and every successful entry at 0-based input index
`k`, the generated tag is the entry's display name (`parsed.name`, or the
placeholder `Proxy Server` when empty) followed by `-(k+1)` and the
application suffix ` [vortexVpn]`, where `k` indexes the whole input
sequence — failure entries occupy their own indices, so the numbering
reflects input position, not success-only position. -/
theorem c5_tag_numbering (links : List JStr) (k : Nat) (l : JStr) (e : BatchEntry) (tag : JStr)
    (hl : links.get? k = some l)
    (he : (processLinks links 0).get? k = some e)
    (ht : entryTag e = some tag) :
    (parseAnyLink l).map
        (fun p => displayNameOf p ++ "-".toList ++ (Nat.repr (k + 1)).toList ++ " [vortexVpn]".toList)
      = .ok tag := by
  rw [processLinks, processLinksAux_get?, hl] at he
  simp only [Option.map_some', Option.some.injEq] at he
  subst he
  simp only [processOne, convertOne] at ht
  cases hp : parseAnyLink l with
  | error e2 => rw [hp] at ht; simp [entryTag] at ht
  | ok p =>
    rw [hp] at ht
    split at ht
    · rename_i x config2 formats2 tag2 heq
      simp only [entryTag, Option.some.injEq] at ht
      subst ht
      repeat' split at heq
      all_goals cases heq
      all_goals simp_all [Except.map]
    · simp [entryTag] at ht

theorem c5_tag_numbering_witness :
    (["bad".toList, "vless://u@h.com:443?x=1#a".toList].get? 1 = some "vless://u@h.com:443?x=1#a".toList) ∧
    ((processLinks ["bad".toList, "vless://u@h.com:443?x=1#a".toList] 0).get? 1
        = some (processOne "vless://u@h.com:443?x=1#a".toList 1 0)) ∧
    (entryTag (processOne "vless://u@h.com:443?x=1#a".toList 1 0) = some "a-2 [vortexVpn]".toList) ∧
    (parseAnyLink "vless://u@h.com:443?x=1#a".toList).map
        (fun p => displayNameOf p ++ "-".toList ++ (Nat.repr (1 + 1)).toList ++ " [vortexVpn]".toList)
      = .ok "a-2 [vortexVpn]".toList :=
  ⟨by decide, by decide, by decide,
   c5_tag_numbering ["bad".toList, "vless://u@h.com:443?x=1#a".toList] 1
     "vless://u@h.com:443?x=1#a".toList (processOne "vless://u@h.com:443?x=1#a".toList 1 0)
     "a-2 [vortexVpn]".toList (by decide) (by decide) (by decide)⟩

-- --- C6: the vless SNI fallback chain ------------------------------------

theorem containsSeq_intro (pat a b : JStr) : containsSeq pat (a ++ (pat ++ b)) :=
  ⟨a, b, by simp⟩

theorem containsSeq_inl {pat s : JStr} (t : JStr) (hc : containsSeq pat s) :
    containsSeq pat (t ++ s) := by
  obtain ⟨a, b, rfl⟩ := hc
  exact ⟨t ++ a, b, by simp⟩

theorem containsSeq_inr {pat s : JStr} (t : JStr) (hc : containsSeq pat s) :
    containsSeq pat (s ++ t) := by
  obtain ⟨a, b, rfl⟩ := hc
  exact ⟨a, b ++ t, by simp⟩

theorem containsSeq_cons {pat s : JStr} (c : Char) (hc : containsSeq pat s) :
    containsSeq pat (c :: s) :=
  containsSeq_inl [c] hc

theorem containsSeq_sniC (s rest : JStr) :
    containsSeq ("sni=".toList ++ s) ('s' :: 'n' :: 'i' :: '=' :: (s ++ rest)) :=
  ⟨[], rest, by simp⟩

theorem containsSeq_sniC2 (s : JStr) :
    containsSeq ("sni=".toList ++ s) ('s' :: 'n' :: 'i' :: '=' :: s) :=
  ⟨[], [], by simp⟩

set_option maxHeartbeats 1000000 in
theorem toClash_vless_servername (cfg : Config)
    (ht : cfg.type = "vless".toList)
    (hsec : cfg.security = "tls".toList ∨ cfg.security = "reality".toList)
    (hsni : otruthy cfg.sni = true) :
    (toClash cfg).map ClashObj.servername = .ok cfg.sni := by
  rcases hsec with hv | hv <;>
    (simp only [toClash, clashWs, ht, hv, hsni];
     simp [apply_ite ClashObj.servername, Except.map])

set_option maxHeartbeats 1000000 in
theorem toSingBox_vless_serverName (cfg : Config)
    (ht : cfg.type = "vless".toList)
    (hsec : cfg.security = "tls".toList ∨ cfg.security = "reality".toList)
    (hsni : otruthy cfg.sni = true) :
    ((toSingBox cfg).tls).map SbTls.serverName = some cfg.sni := by
  rcases hsec with hv | hv <;>
    (simp only [toSingBox, ht, hv, jsOrO, hsni];
     simp [apply_ite SbObj.tls, apply_ite (Option.map SbTls.serverName),
           apply_ite SbTls.serverName])

set_option maxHeartbeats 1000000 in
theorem toSurge_vless_sni (cfg : Config) (s : JStr)
    (ht : cfg.type = "vless".toList)
    (hsec : cfg.security = "tls".toList ∨ cfg.security = "reality".toList)
    (hs : cfg.sni = some s) :
    ∃ out, toSurge cfg = .ok out ∧ containsSeq ("sni=".toList ++ s) out := by
  rcases hsec with hv | hv <;>
    simp only [toSurge, surgeWs, ht, hv, hs, tplO] <;> simp <;>
    repeat first
      | exact containsSeq_sniC _ _
      | exact containsSeq_sniC2 _
      | apply containsSeq_cons
      | apply containsSeq_inl

set_option maxHeartbeats 1000000 in
theorem toQuantumult_vless_sni (cfg : Config) (s : JStr)
    (ht : cfg.type = "vless".toList)
    (hsec : cfg.security = "tls".toList ∨ cfg.security = "reality".toList)
    (hs : cfg.sni = some s) :
    ∃ out, toQuantumult cfg = .ok out ∧ containsSeq ("sni=".toList ++ s) out := by
  rcases hsec with hv | hv <;>
    simp only [toQuantumult, quanWs, ht, hv, hs, tplO] <;> simp <;>
    repeat first
      | exact containsSeq_sniC _ _
      | exact containsSeq_sniC2 _
      | apply containsSeq_cons
      | apply containsSeq_inl

theorem vless_serializers_sni (cfg : Config) (s : JStr)
    (ht : cfg.type = "vless".toList)
    (hsec : cfg.security = "tls".toList ∨ cfg.security = "reality".toList)
    (hs : cfg.sni = some s) (hsne : s ≠ []) :
    ((toClash cfg).map ClashObj.servername = .ok (some s)) ∧
    (∃ out, toSurge cfg = .ok out ∧ containsSeq ("sni=".toList ++ s) out) ∧
    (∃ out, toQuantumult cfg = .ok out ∧ containsSeq ("sni=".toList ++ s) out) ∧
    (((toSingBox cfg).tls).map SbTls.serverName = some (some s)) := by
  have hsni : otruthy cfg.sni = true := by simp [hs, hsne]
  refine ⟨?_, toSurge_vless_sni cfg s ht hsec hs, toQuantumult_vless_sni cfg s ht hsec hs, ?_⟩
  · rw [toClash_vless_servername cfg ht hsec hsni, hs]
  · rw [toSingBox_vless_serverName cfg ht hsec hsni, hs]

/-- C6.  For every vless link whose query has no `sni` and no `host`
parameter, the parsed record's SNI falls back to the literal host of the
link, and (when the link's `security` parameter enables TLS, i.e. is `tls`
or `reality`) that hostname appears as the TLS server-name value in all
four target-format fragments: the clash object's `servername`, a `sni=`
option in the surge line, a `sni=` option in the quantumult line, and the
singbox `tls.server_name`. -/
theorem c6_sni_fallback (u h p q f sec : JStr) (pairs : List (JStr × JStr))
    (hau : '@' ∉ u) (hah : '@' ∉ h) (hap : '@' ∉ p) (haq : '@' ∉ q) (haf : '@' ∉ f)
    (hqh : '?' ∉ h) (hqp : '?' ∉ p) (hqq : '?' ∉ q) (hqf : '?' ∉ f)
    (hch : ':' ∉ h) (hcp : ':' ∉ p)
    (hfq : '#' ∉ q) (hff : '#' ∉ f)
    (hh : h ≠ [])
    (hparams : buildParams (splitc '&' q) = .ok pairs)
    (hsni : pget pairs "sni".toList = none)
    (hhost : pget pairs "host".toList = none)
    (hsec : pget pairs "security".toList = some sec)
    (hsecv : sec = "tls".toList ∨ sec = "reality".toList) :
    ∃ r, parseVLESS ("vless://".toList ++
        (u ++ ('@' :: (h ++ (':' :: (p ++ ('?' :: (q ++ ('#' :: f))))))))) = .ok r ∧
      r.sni = some h ∧ r.host = some h ∧ r.security = sec ∧
      ((toClash r).map ClashObj.servername = .ok (some h)) ∧
      (∃ s, toSurge r = .ok s ∧ containsSeq ("sni=".toList ++ h) s) ∧
      (∃ t, toQuantumult r = .ok t ∧ containsSeq ("sni=".toList ++ h) t) ∧
      (((toSingBox r).tls).map SbTls.serverName = some (some h)) := by
  have hsecne : sec ≠ [] := by rcases hsecv with h1 | h1 <;> subst h1 <;> decide
  have hA : splitc '@' (u ++ ('@' :: (h ++ (':' :: (p ++ ('?' :: (q ++ ('#' :: f))))))))
      = [u, h ++ (':' :: (p ++ ('?' :: (q ++ ('#' :: f)))))] := by
    rw [splitc_sep_append _ hau, splitc_no_sep (by simp [hah, hap, haq, haf])]
  have hQ : splitc '?' (h ++ (':' :: (p ++ ('?' :: (q ++ ('#' :: f))))))
      = [h ++ (':' :: p), q ++ ('#' :: f)] := by
    have hassoc : h ++ (':' :: (p ++ ('?' :: (q ++ ('#' :: f)))))
        = (h ++ (':' :: p)) ++ ('?' :: (q ++ ('#' :: f))) := by simp
    rw [hassoc, splitc_sep_append _ (by simp [hqh, hqp]),
        splitc_no_sep (by simp [hqq, hqf])]
  have hC : splitc ':' (h ++ (':' :: p)) = [h, p] := by
    rw [splitc_sep_append _ hch, splitc_no_sep hcp]
  have hH : splitc '#' (q ++ ('#' :: f)) = [q, f] := by
    rw [splitc_sep_append _ hfq, splitc_no_sep hff]
  have hpairs2 : (if q ≠ [] then buildParams (splitc '&' q) else .ok ([] : List (JStr × JStr)))
      = .ok pairs := by
    by_cases hq : q = []
    · subst hq
      have hbp : buildParams (splitc '&' ([] : JStr)) = .ok [] := rfl
      rw [hbp] at hparams
      simp only [ne_eq, not_true_eq_false, if_false]
      exact hparams
    · simp [hq, hparams]
  simp only [parseVLESS, isPrefixOf_append, Bool.not_true, Bool.false_eq_true, if_false,
    drop_len_append _ (by decide : ("vless://".toList).length = 8), hA, hQ, hC, hH,
    List.get?_cons_zero, List.get?_cons_succ, List.headI_cons, List.headI,
    otruthy_some, Option.getD_some]
  have hne : (decide (q ++ '#' :: f ≠ [])) = true := by simp
  simp only [hne, if_true, not_true, if_false, hpairs2]
  have hsecfield : jsOr (pget pairs "security".toList) "none".toList = sec := by
    rw [hsec]; simp [jsOr, hsecne]
  have hsnifield : jsOr (pget pairs "sni".toList) (jsOr (pget pairs "host".toList) h) = h := by
    rw [hsni, hhost]; simp [jsOr]
  refine ⟨_, rfl, ?_, ?_, ?_, ?_⟩
  · simp only [hsnifield]
  · rfl
  · simp only [hsecfield]
  · exact vless_serializers_sni _ h rfl
      (by simp only [hsecfield]; exact hsecv) (by simpa using hsnifield) hh

theorem c6_sni_fallback_witness :
    (buildParams (splitc '&' "security=tls&x=1".toList)
        = .ok [("security".toList, "tls".toList), ("x".toList, "1".toList)]) ∧
    (∃ r, parseVLESS ("vless://".toList ++
        ("u".toList ++ ('@' :: ("h.com".toList ++ (':' :: ("443".toList ++
          ('?' :: ("security=tls&x=1".toList ++ ('#' :: "n".toList))))))))) = .ok r ∧
      r.sni = some "h.com".toList ∧ r.host = some "h.com".toList ∧
      r.security = "tls".toList ∧
      ((toClash r).map ClashObj.servername = .ok (some "h.com".toList)) ∧
      (∃ out, toSurge r = .ok out ∧ containsSeq ("sni=".toList ++ "h.com".toList) out) ∧
      (∃ out, toQuantumult r = .ok out ∧ containsSeq ("sni=".toList ++ "h.com".toList) out) ∧
      (((toSingBox r).tls).map SbTls.serverName = some (some "h.com".toList))) :=
  ⟨by decide,
   c6_sni_fallback "u".toList "h.com".toList "443".toList "security=tls&x=1".toList
     "n".toList "tls".toList [("security".toList, "tls".toList), ("x".toList, "1".toList)]
     (by decide) (by decide) (by decide) (by decide) (by decide) (by decide) (by decide)
     (by decide) (by decide) (by decide) (by decide) (by decide) (by decide) (by decide)
     (by decide) (by decide) (by decide) (by decide) (Or.inl rfl)⟩

-- --- C7: template level fallback -----------------------------------------

/-- C7.  For a known format, when the requested level's template source
cannot be read (and neither key is cached), `loadTemplate` retries exactly
once with the baseline level `basic` and behaves exactly like that single
retry: if the `basic` source loads, its compiled document is returned (and
cached under the `basic` key); if the `basic` read also fails, the load
error is propagated as one fatal wrapped `Template for ... could not be
loaded. Original error: ...` — there is no further fallback. -/
theorem c7_template_fallback (fs : String → String → Except String String)
    (cache : TemplateCache) (format level e : String)
    (_hk : format = "clash" ∨ format = "surge" ∨ format = "quantumult" ∨ format = "singbox")
    (hc1 : cacheLookup cache (format, level) = none)
    (hc2 : cacheLookup cache (format, "basic") = none)
    (hlev : level ≠ "basic")
    (hfail : fs format (level ++ "." ++ extensionMap format) = .error e) :
    loadTemplate fs cache format level
      = match fs format ("basic." ++ extensionMap format) with
        | .ok source => .ok (source, ((format, "basic"), source) :: cache)
        | .error e2 => .error ("Template for " ++ format ++ " at level " ++ "basic" ++
            " could not be loaded. Original error: " ++ e2) := by
  rw [loadTemplate]
  simp only [hc1, hfail]
  rw [dif_pos hlev]
  rw [loadTemplate]
  simp only [hc2]
  cases hb : fs format ("basic." ++ extensionMap format) with
  | ok src => simp [hb]
  | error e2 => simp [hb]

theorem c7_template_fallback_witness :
    ((fun _ n => if n = "basic.yaml.hbs" then Except.ok "BASIC" else .error "ENOENT"
        : String → String → Except String String) "clash" ("full" ++ "." ++ extensionMap "clash")
      = .error "ENOENT") ∧
    loadTemplate
        (fun _ n => if n = "basic.yaml.hbs" then Except.ok "BASIC" else .error "ENOENT")
        [] "clash" "full"
      = match (fun (_ : String) (n : String) =>
            if n = "basic.yaml.hbs" then Except.ok "BASIC" else .error "ENOENT")
            "clash" ("basic." ++ extensionMap "clash") with
        | .ok source => .ok (source, (("clash", "basic"), source) :: [])
        | .error e2 => .error ("Template for " ++ "clash" ++ " at level " ++ "basic" ++
            " could not be loaded. Original error: " ++ e2) :=
  ⟨by decide,
   c7_template_fallback
     (fun _ n => if n = "basic.yaml.hbs" then Except.ok "BASIC" else .error "ENOENT")
     [] "clash" "full" "ENOENT" (Or.inl rfl) rfl rfl (by decide) (by decide)⟩

-- --- C8: the reality client-fingerprint default --------------------------

/-- C8 counterexample.  The claim says every serializer that emits a client
fingerprint for a `reality`-mode record with no fingerprint field uses the
default `chrome`.  The clash serializer does not: for the parsed record of
`vlessRealityNoFpLink` it emits `client-fingerprint` as the raw empty
string, not `chrome`. -/
theorem c8_counterexample :
    ((parseVLESS vlessRealityNoFpLink).bind toClash).map ClashObj.clientFingerprint
      = .ok (some []) ∧
    some ([] : JStr) ≠ some "chrome".toList := by
  exact ⟨by decide, by decide⟩

/-- C8 amended.  The `chrome` default for an absent client fingerprint in
`reality` mode is applied only by the singbox serializer (which also applies
it for trojan); the clash serializer copies the raw empty `fp` into
`client-fingerprint` without any default, and surge/quantumult emit no
client-fingerprint option in reality mode at all.  Stated over any vless
reality record and any trojan record with empty `fp`. -/
theorem c8_amended (cfg cfgT : Config)
    (ht : cfg.type = "vless".toList)
    (hsec : cfg.security = "reality".toList)
    (hfp : cfg.fp = [])
    (htT : cfgT.type = "trojan".toList)
    (hfpT : cfgT.fp = []) :
    (((toSingBox cfg).tls).map (fun t => t.utls.map SbUtls.fingerprint)
        = some (some (some "chrome".toList))) ∧
    ((toClash cfg).map ClashObj.clientFingerprint = .ok (some [])) ∧
    (((toSingBox cfgT).tls).map (fun t => t.utls.map SbUtls.fingerprint)
        = some (some (some "chrome".toList))) := by
  refine ⟨?_, ?_, ?_⟩
  · simp only [toSingBox, ht, hsec, hfp]
    simp [apply_ite SbObj.tls, apply_ite (Option.map (fun t : SbTls => t.utls.map SbUtls.fingerprint))]
  · simp only [toClash, clashWs, ht, hsec, hfp]
    simp [apply_ite ClashObj.clientFingerprint, Except.map]
  · simp only [toSingBox, htT, hfpT]
    simp [apply_ite SbObj.tls, apply_ite SbTls.utls,
      apply_ite (Option.map (fun t : SbTls => t.utls.map SbUtls.fingerprint))]

theorem c8_amended_witness :
    ((parseVLESS vlessRealityNoFpLink).map Config.security = .ok "reality".toList) ∧
    ((parseVLESS vlessRealityNoFpLink).map Config.fp = .ok []) ∧
    (((toSingBox { type := "vless".toList, security := "reality".toList }).tls).map
        (fun t => t.utls.map SbUtls.fingerprint) = some (some (some "chrome".toList))) ∧
    ((toClash { type := "vless".toList, security := "reality".toList }).map
        ClashObj.clientFingerprint = .ok (some [])) ∧
    (((toSingBox { type := "trojan".toList }).tls).map
        (fun t => t.utls.map SbUtls.fingerprint) = some (some (some "chrome".toList))) := by
  have h := c8_amended { type := "vless".toList, security := "reality".toList }
    { type := "trojan".toList } rfl rfl rfl rfl rfl
  exact ⟨by decide, by decide, h.1, h.2.1, h.2.2⟩

-- --- C9: shadowsocks base64 never fails ----------------------------------

/-- C9 counterexample.  The claim says parsing an ss link with invalid
base64 userinfo fails with an `InvalidPayload` diagnostic.  It does not:
Node's lenient decoder never throws, so `parseSS` succeeds on
`ss://!!!@h.com:443#x` and produces a garbled record (empty method, absent
password) instead of an error. -/
theorem c9_counterexample :
    exIsOk (parseSS ssBadBase64Link) = true ∧
    (parseSS ssBadBase64Link).map Config.method = .ok [] ∧
    (parseSS ssBadBase64Link).map Config.password = .ok none := by
  exact ⟨by decide, by decide, by decide⟩

/-- C9 amended.  For every structurally well-formed ss link
(`ss://userinfo@host:port` with no delimiter characters inside the parts),
parsing succeeds for every userinfo whatsoever — valid base64 or not — and
the method/password are whatever Node's lenient decoder produces; the
`Invalid Shadowsocks base64 encoding` branch of the source is unreachable. -/
theorem c9_amended (u h p : JStr)
    (hfu : '#' ∉ u) (hfh : '#' ∉ h) (hfp : '#' ∉ p)
    (hau : '@' ∉ u) (hah : '@' ∉ h) (hap : '@' ∉ p)
    (hch : ':' ∉ h) (hcp : ':' ∉ p)
    (hqp : '?' ∉ p) :
    ∃ r, parseSS ("ss://".toList ++ (u ++ ('@' :: (h ++ (':' :: p))))) = .ok r ∧
      r.method = ((splitc ':' (nodeBase64Decode u)).take 2).headI ∧
      r.password = ((splitc ':' (nodeBase64Decode u)).take 2).get? 1 ∧
      r.host = some h ∧ r.port = jsParseInt p := by
  have hF : indexOfc '#' ("ss://".toList ++ (u ++ ('@' :: (h ++ (':' :: p))))) = none :=
    indexOfc_eq_none (by simp [hfu, hfh, hfp])
  have hA : splitc '@' (u ++ ('@' :: (h ++ (':' :: p)))) = [u, h ++ (':' :: p)] := by
    rw [splitc_sep_append _ hau, splitc_no_sep (by simp [hah, hap])]
  have hC : splitc ':' (h ++ (':' :: p)) = [h, p] := by
    rw [splitc_sep_append _ hch, splitc_no_sep hcp]
  have hQp : splitc '?' p = [p] := splitc_no_sep hqp
  simp only [parseSS, isPrefixOf_append, Bool.not_true, Bool.false_eq_true, if_false,
    hF, Option.getD_none, List.take_length,
    drop_len_append _ (by decide : ("ss://".toList).length = 5), hA, hC, hQp,
    List.get?_cons_zero, List.get?_cons_succ, List.headI_cons, List.tail_cons]
  simp

-- --- C10: the GET-mode link extractor ------------------------------------

/-- C10.  In delimited-string (GET) input mode the extractor keeps exactly
the trimmed, non-empty comma-separated segments that are longer than 30
characters and contain `@` or `#` (`extractKeep`); every other segment is
silently dropped — the returned list (which is all the batch processor ever
sees) simply does not contain it, so it produces no failure entry.  In
particular a well-formed vmess link — scheme prefix plus a base64 body,
which contains neither `@` nor `#` — is never in the extracted list. -/
theorem c10_extract (raw b l : JStr) (ls : List JStr)
    (hok : extractLinks raw = .ok ls)
    (hb : ∀ c ∈ b, (b64Val c).isSome = true) :
    (l ∈ ls ↔ (l ∈ ((splitc ',' raw).map trimJ).filter (· ≠ []) ∧ extractKeep l = true)) ∧
    ("vmess://".toList ++ b) ∉ ls := by
  simp only [extractLinks] at hok
  by_cases h0 : raw = []
  · rw [if_pos h0] at hok
    cases hok
  · rw [if_neg h0] at hok
    by_cases h1 : (((splitc ',' raw).map trimJ).filter (· ≠ [])).filter extractKeep = []
    · rw [if_pos h1] at hok
      cases hok
    · rw [if_neg h1] at hok
      have hls : ls = (((splitc ',' raw).map trimJ).filter (· ≠ [])).filter extractKeep := by
        cases hok; rfl
      subst hls
      constructor
      · exact List.mem_filter
      · intro hmem
        have hkeep := (List.mem_filter.mp hmem).2
        have hat : '@' ∉ ("vmess://".toList ++ b) := by
          simp only [List.mem_append]
          rintro (hc | hc)
          · exact absurd hc (by decide)
          · have := hb '@' hc
            simp [b64Val] at this
        have hht : '#' ∉ ("vmess://".toList ++ b) := by
          simp only [List.mem_append]
          rintro (hc | hc)
          · exact absurd hc (by decide)
          · have := hb '#' hc
            simp [b64Val] at this
        simp only [extractKeep, Bool.and_eq_true, Bool.or_eq_true] at hkeep
        rcases hkeep.2 with hc | hc
        · obtain ⟨x, hx, hbeq⟩ := List.contains_iff_exists_mem_beq.mp hc
          rw [beq_iff_eq] at hbeq
          exact hat (hbeq ▸ hx)
        · obtain ⟨x, hx, hbeq⟩ := List.contains_iff_exists_mem_beq.mp hc
          rw [beq_iff_eq] at hbeq
          exact hht (hbeq ▸ hx)

theorem c10_extract_witness :
    (extractLinks "vmess://eyJpZCI6InUxIiwiYWRkIjoiaC5jb20iLCJwb3J0IjoiNDQzIn0,trojan://p@example.com:443#MyNode".toList
       = .ok ["trojan://p@example.com:443#MyNode".toList]) ∧
    (("trojan://p@example.com:443#MyNode".toList ∈ (["trojan://p@example.com:443#MyNode".toList] : List JStr)) ↔
      ("trojan://p@example.com:443#MyNode".toList ∈
          ((splitc ',' "vmess://eyJpZCI6InUxIiwiYWRkIjoiaC5jb20iLCJwb3J0IjoiNDQzIn0,trojan://p@example.com:443#MyNode".toList).map trimJ).filter (· ≠ []) ∧
        extractKeep "trojan://p@example.com:443#MyNode".toList = true)) ∧
    ("vmess://".toList ++ "eyJpZCI6InUxIiwiYWRkIjoiaC5jb20iLCJwb3J0IjoiNDQzIn0".toList
       ∉ (["trojan://p@example.com:443#MyNode".toList] : List JStr)) := by
  have h := c10_extract
    "vmess://eyJpZCI6InUxIiwiYWRkIjoiaC5jb20iLCJwb3J0IjoiNDQzIn0,trojan://p@example.com:443#MyNode".toList
    "eyJpZCI6InUxIiwiYWRkIjoiaC5jb20iLCJwb3J0IjoiNDQzIn0".toList
    "trojan://p@example.com:443#MyNode".toList
    ["trojan://p@example.com:443#MyNode".toList]
    (by decide) (by decide)
  exact ⟨by decide, h.1, h.2⟩

theorem c9_amended_witness :
    ∃ r, parseSS ("ss://".toList ++
        ("!!!".toList ++ ('@' :: ("h.com".toList ++ (':' :: "443".toList))))) = .ok r ∧
      r.method = ((splitc ':' (nodeBase64Decode "!!!".toList)).take 2).headI ∧
      r.password = ((splitc ':' (nodeBase64Decode "!!!".toList)).take 2).get? 1 ∧
      r.host = some "h.com".toList ∧ r.port = jsParseInt "443".toList :=
  c9_amended "!!!".toList "h.com".toList "443".toList (by decide) (by decide) (by decide)
    (by decide) (by decide) (by decide) (by decide) (by decide) (by decide)
